import Mathlib

/-!
# Salt master provisioning: `CreateSaltMaster`

A shallow embedding of `pulumi/src/saltstack/master/main.go`.

The Go function is straight-line code that reads settings from the ambient
stack configuration, issues five resource registrations against the cloud
provider, and writes two stack outputs.  It is embedded as a pure function
from the context, the infrastructure record and a provider (one function per
registration call, each of which may fail) to a `Run`: the ordered trace of
everything the function did, together with how it ended.

Deferred values (`pulumi.StringOutput`) are modelled by the value they
resolve to, so `ApplyString` is function application.

The trace follows the statements of the source.  The `ComposeBootstrap` event
stands where the source evaluates the `ApplyString` expression (line 104) and
records the configuration its callback renders for the resolved token.  The Go
runtime runs that callback asynchronously, once the token has resolved, while
the function goes on to call `NewDevice`; when the callback runs relative to
the later calls is decided by the runtime and is not represented here.
-/

namespace Master

/-! ## Data model -/

/-- A Go `error` value that is not nil. -/
structure Error where
  msg : String
deriving DecidableEq, Repr

/-- The stack-configuration object `saltMaster` (`SaltMasterConfig`). -/
structure SaltMasterConfig where
  Facility : String
  Plan : String
deriving DecidableEq, Repr

/-- The resource returned by `random.NewRandomUuid`; `Result` is the resolved uuid. -/
structure RandomUuid where
  Result : String
deriving DecidableEq, Repr

/-- The stack-configuration object `teleport` (`TeleportConfig`). -/
structure TeleportConfig where
  ClientID : String
  ClientSecret : String
  PeerToken : Option RandomUuid
deriving DecidableEq, Repr

/-- The stack-configuration object `github` (`GitHubConfig`). -/
structure GitHubConfig where
  Username : String
  AccessToken : String
deriving DecidableEq, Repr

/-- The stack-configuration object `aws` (`AwsConfig`). -/
structure AwsConfig where
  AccessKeyID : String
  SecretAccessKey : String
  BucketName : String
  BucketLocation : String
deriving DecidableEq, Repr

/-- The `BootstrapConfig` record handed to `cloudInitConfig`.  Its declaration lives in
another file of the package; the fields are the ones `CreateSaltMaster` assigns. -/
structure BootstrapConfig where
  teleportDomain : String
  teleportClientID : String
  teleportClientSecret : String
  teleportPeerToken : String
  githubUsername : String
  githubAccessToken : String
  awsBucketName : String
  awsBucketLocation : String
  awsAccessKeyID : String
  awsSecretAccessKey : String
deriving DecidableEq, Repr

/-- The settings `CreateSaltMaster` reads with `Require` / `RequireObject`.  `none` is a
setting that is absent (or cannot be decoded). -/
structure Config where
  projectId : Option String
  saltMaster : Option SaltMasterConfig
  teleport : Option TeleportConfig
  github : Option GitHubConfig
  aws : Option AwsConfig
deriving DecidableEq, Repr

/-- The part of `*pulumi.Context` the function reads: the configuration and `ctx.Stack()`. -/
structure Context where
  config : Config
  Stack : String
deriving DecidableEq, Repr

/-- The DNS zone resource; `Zone` is the zone name. -/
structure DnsZone where
  Zone : String
deriving DecidableEq, Repr

/-- The record `internal.Infrastructure`, of which only `Zone.Zone` is read. -/
structure Infrastructure where
  Zone : DnsZone
deriving DecidableEq, Repr

/-- The operating systems of the provider SDK; the function uses `OperatingSystemUbuntu2004`. -/
inductive OperatingSystem where
  | OperatingSystemUbuntu2004
  | OperatingSystemOther (slug : String)
deriving DecidableEq, Repr

/-- The billing cycles of the provider SDK; the function uses `BillingCycleHourly`. -/
inductive BillingCycle where
  | BillingCycleHourly
  | BillingCycleOther (slug : String)
deriving DecidableEq, Repr

/-- Arguments of `equinix.NewReservedIpBlock`. -/
structure ReservedIpBlockArgs where
  Facility : String
  ProjectId : String
  Quantity : Int
deriving DecidableEq, Repr

/-- The resource returned by `equinix.NewReservedIpBlock`. -/
structure ReservedIpBlock where
  Address : String
  CidrNotation : String
deriving DecidableEq, Repr

/-- Arguments of `equinix.NewDevice`. -/
structure DeviceArgs where
  ProjectId : String
  Hostname : String
  Plan : String
  Facilities : List String
  OperatingSystem : OperatingSystem
  Tags : List String
  BillingCycle : BillingCycle
  UserData : String
deriving DecidableEq, Repr

/-- The resource returned by `equinix.NewDevice`. -/
structure Device where
  ID : String
  AccessPublicIpv4 : String
deriving DecidableEq, Repr

/-- Arguments of `equinix.NewIpAttachment`. -/
structure IpAttachmentArgs where
  DeviceId : String
  CidrNotation : String
deriving DecidableEq, Repr

/-- The resource returned by `equinix.NewIpAttachment` (discarded by the caller). -/
structure IpAttachment where
  ID : String
deriving DecidableEq, Repr

/-- One element of `ns1.RecordAnswerArray`. -/
structure RecordAnswerArgs where
  Answer : String
deriving DecidableEq, Repr

/-- Arguments of `ns1.NewRecord`; `RecordType` is the field `Type`. -/
structure RecordArgs where
  Zone : String
  Domain : String
  RecordType : String
  Answers : List RecordAnswerArgs
deriving DecidableEq, Repr

/-- The resource returned by `ns1.NewRecord` (discarded by the caller). -/
structure Record where
  ID : String
deriving DecidableEq, Repr

/-- The return struct of `CreateSaltMaster`. -/
structure SaltMaster where
  Device : Device
deriving DecidableEq, Repr

/-- The Go zero value `SaltMaster{}`. -/
def SaltMaster.zero : SaltMaster := { Device := { ID := "", AccessPublicIpv4 := "" } }

/-- The cloud provider: one function per registration call, from the resource name and the
arguments to the created resource or an error. -/
structure Provider where
  NewReservedIpBlock : String → ReservedIpBlockArgs → Except Error ReservedIpBlock
  NewRandomUuid : String → Except Error RandomUuid
  NewDevice : String → DeviceArgs → Except Error Device
  NewIpAttachment : String → IpAttachmentArgs → Bool → Except Error IpAttachment
  NewRecord : String → RecordArgs → Except Error Record

/-- Everything a run does that is visible from outside, in the order of the statements of
the source.  `ComposeBootstrap` marks the `ApplyString` expression that hands the renderer
to the runtime, with the configuration the renderer receives for the resolved token. -/
inductive Event where
  | ReserveAddress (name : String) (args : ReservedIpBlockArgs)
  | GenerateRandomToken (name : String)
  | ComposeBootstrap (config : BootstrapConfig)
  | CreateInstance (name : String) (args : DeviceArgs)
  | Export (name : String) (value : String)
  | AttachAddress (name : String) (args : IpAttachmentArgs) (deleteBeforeReplace : Bool)
  | CreateDnsRecord (name : String) (args : RecordArgs)
deriving DecidableEq, Repr

/-- How a run ends: `Require` / `RequireObject` aborts the program on an absent setting
(`missingConfig key`), otherwise the function returns its pair `(SaltMaster, error)`. -/
inductive Outcome where
  | missingConfig (key : String)
  | returned (saltMaster : SaltMaster) (err : Option Error)
deriving DecidableEq, Repr

/-- A finished run: the trace of events and the outcome. -/
structure Run where
  trace : List Event
  result : Outcome
deriving DecidableEq, Repr

/-! ## The program -/

/-- The combinator `StringOutput.ApplyString`, on a resolved value. -/
def ApplyString (s : String) (f : String → String) : String := f s

/-- The function `CreateSaltMaster` of `main.go`.  `cloudInitConfig` is the bootstrap
renderer, declared in another file of the package and taken as a parameter. -/
def CreateSaltMaster (cloudInitConfig : BootstrapConfig → String) (provider : Provider)
    (ctx : Context) (infrastructure : Infrastructure) : Run :=
  -- metalConfig.Require("projectId")
  match ctx.config.projectId with
  | none => { trace := [], result := .missingConfig "equinix-metal:projectId" }
  | some projectID =>
  -- stackConfig.RequireObject("saltMaster", saltMasterConfig)
  match ctx.config.saltMaster with
  | none => { trace := [], result := .missingConfig "saltMaster" }
  | some saltMasterConfig =>
  let reservedIpBlockArgs : ReservedIpBlockArgs :=
    { Facility := saltMasterConfig.Facility, ProjectId := projectID, Quantity := 1 }
  let trace1 := [Event.ReserveAddress "salt-master" reservedIpBlockArgs]
  match provider.NewReservedIpBlock "salt-master" reservedIpBlockArgs with
  | .error err => { trace := trace1, result := .returned SaltMaster.zero (some err) }
  | .ok elasticIP =>
  -- stackConfig.RequireObject("teleport", &teleportConfig)
  match ctx.config.teleport with
  | none => { trace := trace1, result := .missingConfig "teleport" }
  | some teleportConfig0 =>
  let teleportDomain := "teleport." ++ infrastructure.Zone.Zone
  let trace2 := trace1 ++ [Event.GenerateRandomToken "teleport-peer-token"]
  match provider.NewRandomUuid "teleport-peer-token" with
  | .error err => { trace := trace2, result := .returned SaltMaster.zero (some err) }
  | .ok peerToken =>
  let teleportConfig : TeleportConfig := { teleportConfig0 with PeerToken := some peerToken }
  -- stackConfig.RequireObject("github", &gitHubConfig)
  match ctx.config.github with
  | none => { trace := trace2, result := .missingConfig "github" }
  | some gitHubConfig =>
  -- stackConfig.RequireObject("aws", &awsConfig)
  match ctx.config.aws with
  | none => { trace := trace2, result := .missingConfig "aws" }
  | some awsConfig =>
  let bootstrapConfig : BootstrapConfig :=
    { teleportDomain := teleportDomain
      teleportClientID := teleportConfig.ClientID
      teleportClientSecret := teleportConfig.ClientSecret
      teleportPeerToken := ""
      githubUsername := gitHubConfig.Username
      githubAccessToken := gitHubConfig.AccessToken
      awsBucketName := awsConfig.BucketName
      awsBucketLocation := awsConfig.BucketLocation
      awsAccessKeyID := awsConfig.AccessKeyID
      awsSecretAccessKey := awsConfig.SecretAccessKey }
  -- teleportConfig.PeerToken was set to peerToken just above
  let deviceArgs : DeviceArgs :=
    { ProjectId := projectID
      Hostname := ctx.Stack ++ "-" ++ "salt-master"
      Plan := saltMasterConfig.Plan
      Facilities := [saltMasterConfig.Facility]
      OperatingSystem := .OperatingSystemUbuntu2004
      Tags := ["role:salt-master"]
      BillingCycle := .BillingCycleHourly
      UserData := ApplyString peerToken.Result (fun s =>
        cloudInitConfig { bootstrapConfig with teleportPeerToken := s }) }
  -- the ApplyString expression (line 104) comes before the NewDevice call (line 110)
  let trace3 := trace2 ++
    [Event.ComposeBootstrap { bootstrapConfig with teleportPeerToken := peerToken.Result },
     Event.CreateInstance "salt-master" deviceArgs]
  match provider.NewDevice "salt-master" deviceArgs with
  | .error err => { trace := trace3, result := .returned SaltMaster.zero (some err) }
  | .ok device =>
  let trace4 := trace3 ++
    [Event.Export "saltMasterEip" elasticIP.Address,
     Event.Export "saltMasterIp" device.AccessPublicIpv4]
  -- the second `if err != nil` of the source tests the same nil err again
  let ipAttachmentArgs : IpAttachmentArgs :=
    { DeviceId := device.ID, CidrNotation := elasticIP.CidrNotation }
  let trace5 := trace4 ++ [Event.AttachAddress "salt-master" ipAttachmentArgs true]
  match provider.NewIpAttachment "salt-master" ipAttachmentArgs true with
  | .error err => { trace := trace5, result := .returned SaltMaster.zero (some err) }
  | .ok _ =>
  let recordArgs : RecordArgs :=
    { Zone := infrastructure.Zone.Zone
      Domain := teleportDomain
      RecordType := "A"
      Answers := [{ Answer := elasticIP.Address }] }
  let trace6 := trace5 ++ [Event.CreateDnsRecord "teleport" recordArgs]
  match provider.NewRecord "teleport" recordArgs with
  | .error err => { trace := trace6, result := .returned SaltMaster.zero (some err) }
  | .ok _ => { trace := trace6, result := .returned { Device := device } none }

/-! ## Observations on a run -/

/-- The steps of the pipeline: the five provider calls, the rendering of the bootstrap
payload, and the publication of an output. -/
inductive Step where
  | ReserveAddress
  | GenerateRandomToken
  | ComposeBootstrap
  | CreateInstance
  | AttachAddress
  | CreateDnsRecord
  | PublishResult
deriving DecidableEq, Repr

/-- The step an event belongs to. -/
def Event.step : Event → Step
  | .ReserveAddress _ _ => .ReserveAddress
  | .GenerateRandomToken _ => .GenerateRandomToken
  | .ComposeBootstrap _ => .ComposeBootstrap
  | .CreateInstance _ _ => .CreateInstance
  | .Export _ _ => .PublishResult
  | .AttachAddress _ _ _ => .AttachAddress
  | .CreateDnsRecord _ _ => .CreateDnsRecord

/-- Position of a provider call in the sequence ReserveAddress, GenerateRandomToken,
CreateInstance, AttachAddress, CreateDnsRecord; `0` for a step that is not a provider call. -/
def Step.callRank : Step → Nat
  | .ReserveAddress => 1
  | .GenerateRandomToken => 2
  | .CreateInstance => 3
  | .AttachAddress => 4
  | .CreateDnsRecord => 5
  | .ComposeBootstrap => 0
  | .PublishResult => 0

/-- Whether a step is one of the five provider calls. -/
def Step.isCall (s : Step) : Bool := decide (0 < s.callRank)

/-- The error with which the provider answers the call an event records; `none` when the
call succeeds, and for an event that is not a provider call. -/
def Provider.failure (provider : Provider) : Event → Option Error
  | .ReserveAddress name args =>
    match provider.NewReservedIpBlock name args with
    | .error err => some err
    | .ok _ => none
  | .GenerateRandomToken name =>
    match provider.NewRandomUuid name with
    | .error err => some err
    | .ok _ => none
  | .CreateInstance name args =>
    match provider.NewDevice name args with
    | .error err => some err
    | .ok _ => none
  | .AttachAddress name args deleteBeforeReplace =>
    match provider.NewIpAttachment name args deleteBeforeReplace with
    | .error err => some err
    | .ok _ => none
  | .CreateDnsRecord name args =>
    match provider.NewRecord name args with
    | .error err => some err
    | .ok _ => none
  | .ComposeBootstrap _ => none
  | .Export _ _ => none

/-- The writes to the output registry (`ctx.Export`), in order. -/
def Run.exports (r : Run) : List (String × String) :=
  r.trace.filterMap fun
    | .Export name value => some (name, value)
    | _ => none

/-- The `CreateInstance` calls of a run: resource name and arguments, in order. -/
def Run.createInstanceCalls (r : Run) : List (String × DeviceArgs) :=
  r.trace.filterMap fun
    | .CreateInstance name args => some (name, args)
    | _ => none

/-- Whether an event carries a value read from the reserved address block: the attachment
(`elasticIP.CidrNotation`), the DNS record and the `saltMasterEip` output
(`elasticIP.Address`). -/
def Event.usesReservedAddress : Event → Bool
  | .AttachAddress _ _ _ => true
  | .CreateDnsRecord _ _ => true
  | .Export name _ => decide (name = "saltMasterEip")
  | _ => false

/-! ## Concrete inputs -/

/-- A configuration with every required setting present. -/
def exampleConfig : Config :=
  { projectId := some "proj-1"
    saltMaster := some { Facility := "ams1", Plan := "c3.small.x86" }
    teleport := some { ClientID := "a", ClientSecret := "b", PeerToken := none }
    github := some { Username := "octocat", AccessToken := "gh-token" }
    aws := some { AccessKeyID := "AKIA", SecretAccessKey := "aws-secret",
                  BucketName := "bucket", BucketLocation := "eu-west-1" } }

/-- A context for stack `prod` with the full configuration. -/
def exampleCtx : Context := { config := exampleConfig, Stack := "prod" }

/-- The full configuration with the `teleport` setting removed. -/
def ctxNoTeleport : Context :=
  { config := { exampleConfig with teleport := none }, Stack := "prod" }

/-- The infrastructure of zone `example.com`. -/
def exampleInfra : Infrastructure := { Zone := { Zone := "example.com" } }

/-- A stand-in renderer: the domain and the token, separated by a bar. -/
def exampleRender (c : BootstrapConfig) : String :=
  c.teleportDomain ++ "|" ++ c.teleportPeerToken

/-- A provider all of whose calls succeed. -/
def okProvider : Provider :=
  { NewReservedIpBlock := fun _ _ => .ok { Address := "147.75.1.2", CidrNotation := "147.75.1.2/32" }
    NewRandomUuid := fun _ => .ok { Result := "deadbeef" }
    NewDevice := fun _ _ => .ok { ID := "device-1", AccessPublicIpv4 := "145.40.9.9" }
    NewIpAttachment := fun _ _ _ => .ok { ID := "attachment-1" }
    NewRecord := fun _ _ => .ok { ID := "record-1" } }

/-- As `okProvider`, but reserving another address block. -/
def otherBlockProvider : Provider :=
  { okProvider with
    NewReservedIpBlock := fun _ _ =>
      .ok { Address := "147.75.7.7", CidrNotation := "147.75.7.7/32" } }

/-- As `okProvider`, but address reservation fails. -/
def reserveFailsProvider : Provider :=
  { okProvider with NewReservedIpBlock := fun _ _ => .error { msg := "quota exceeded" } }

/-- As `okProvider`, but token generation fails. -/
def tokenFailsProvider : Provider :=
  { okProvider with NewRandomUuid := fun _ => .error { msg := "token service unavailable" } }

/-- As `okProvider`, but instance creation fails. -/
def deviceFailsProvider : Provider :=
  { okProvider with NewDevice := fun _ _ => .error { msg := "quota exceeded" } }

/-- As `okProvider`, but attaching the address fails. -/
def attachFailsProvider : Provider :=
  { okProvider with NewIpAttachment := fun _ _ _ => .error { msg := "address in use" } }

/-- The `ReserveAddress` event of the example runs. -/
def exampleReserveEvent : Event :=
  .ReserveAddress "salt-master" { Facility := "ams1", ProjectId := "proj-1", Quantity := 1 }

/-! ## Theorems -/

/-- C1: a failed provider call ends the run.  If the trace of a run splits as
`pre ++ ev :: post` and the provider answers the call `ev` with the error `err`, then nothing
happens after `ev`, no call later in the sequence ReserveAddress, GenerateRandomToken,
CreateInstance, AttachAddress, CreateDnsRecord occurs anywhere in the trace, and the function
returns the zero `SaltMaster` with that same `err`.  In particular, when the failed call is
GenerateRandomToken, the trace has no CreateInstance, AttachAddress or CreateDnsRecord. -/
theorem C1_failure_short_circuit (cloudInitConfig : BootstrapConfig → String)
    (provider : Provider) (ctx : Context) (infrastructure : Infrastructure)
    (pre post : List Event) (ev : Event) (err : Error)
    (hsplit : (CreateSaltMaster cloudInitConfig provider ctx infrastructure).trace
      = pre ++ ev :: post)
    (hfail : provider.failure ev = some err) :
    post = [] ∧
    (∀ e ∈ (CreateSaltMaster cloudInitConfig provider ctx infrastructure).trace,
      e.step.callRank ≤ ev.step.callRank) ∧
    (CreateSaltMaster cloudInitConfig provider ctx infrastructure).result
      = .returned SaltMaster.zero (some err) ∧
    (ev.step = .GenerateRandomToken →
      ∀ e ∈ (CreateSaltMaster cloudInitConfig provider ctx infrastructure).trace,
        e.step ≠ .CreateInstance ∧ e.step ≠ .AttachAddress ∧ e.step ≠ .CreateDnsRecord) := by
  revert hsplit
  simp only [CreateSaltMaster]
  repeat' split
  all_goals
    intro hsplit
    simp [List.cons_eq_append_iff, List.nil_eq_append_iff] at hsplit
  all_goals
    casesm* _ ∨ _, _ ∧ _, Exists _
  all_goals
    subst_vars
    simp_all [Provider.failure, Event.step, Step.callRank]

/-- C1, at a run whose token generation fails: the trace is the reservation followed by the
failed token call. -/
theorem C1_failure_short_circuit_witness :
    (CreateSaltMaster exampleRender tokenFailsProvider exampleCtx exampleInfra).trace
      = [exampleReserveEvent] ++ Event.GenerateRandomToken "teleport-peer-token" :: [] ∧
    tokenFailsProvider.failure (Event.GenerateRandomToken "teleport-peer-token")
      = some { msg := "token service unavailable" } ∧
    (CreateSaltMaster exampleRender tokenFailsProvider exampleCtx exampleInfra).result
      = .returned SaltMaster.zero (some { msg := "token service unavailable" }) :=
  ⟨by decide, by decide,
   (C1_failure_short_circuit exampleRender tokenFailsProvider exampleCtx exampleInfra
      [exampleReserveEvent] [] (Event.GenerateRandomToken "teleport-peer-token")
      { msg := "token service unavailable" } (by decide) (by decide)).2.2.1⟩

/-- C2 as stated fails: with only the `teleport` setting absent, the run has already issued
ReserveAddress when the missing setting is detected. -/
theorem C2_counterexample :
    ctxNoTeleport.config.teleport = none ∧
    (CreateSaltMaster exampleRender okProvider ctxNoTeleport exampleInfra).trace
      = [exampleReserveEvent] ∧
    exampleReserveEvent.step.isCall = true ∧
    (CreateSaltMaster exampleRender okProvider ctxNoTeleport exampleInfra).result
      = .missingConfig "teleport" := by
  decide

/-- C2, amended: in a run with a required setting absent, only ReserveAddress and
GenerateRandomToken can have been issued (no CreateInstance, AttachAddress, CreateDnsRecord,
no output), and the run ends with a configuration error or with the error of a failed call.
An absent `projectId` or `saltMaster` is detected before any provider call.  An absent
`teleport` is detected after ReserveAddress was issued and before GenerateRandomToken; an
absent `github` or `aws` is detected after both were issued. -/
theorem C2_missing_config_amended (cloudInitConfig : BootstrapConfig → String)
    (provider : Provider) (ctx : Context) (infrastructure : Infrastructure)
    (hmissing : ctx.config.projectId = none ∨ ctx.config.saltMaster = none ∨
      ctx.config.teleport = none ∨ ctx.config.github = none ∨ ctx.config.aws = none) :
    (∀ e ∈ (CreateSaltMaster cloudInitConfig provider ctx infrastructure).trace,
      e.step = .ReserveAddress ∨ e.step = .GenerateRandomToken) ∧
    ((∃ key, (CreateSaltMaster cloudInitConfig provider ctx infrastructure).result
        = .missingConfig key) ∨
     (∃ err, (CreateSaltMaster cloudInitConfig provider ctx infrastructure).result
        = .returned SaltMaster.zero (some err) ∧
        ∃ e ∈ (CreateSaltMaster cloudInitConfig provider ctx infrastructure).trace,
          provider.failure e = some err)) ∧
    ((ctx.config.projectId = none ∨ ctx.config.saltMaster = none) →
      (CreateSaltMaster cloudInitConfig provider ctx infrastructure).trace = [] ∧
      ∃ key, (CreateSaltMaster cloudInitConfig provider ctx infrastructure).result
        = .missingConfig key) ∧
    ((ctx.config.projectId ≠ none ∧ ctx.config.saltMaster ≠ none) →
      ∃ e ∈ (CreateSaltMaster cloudInitConfig provider ctx infrastructure).trace,
        e.step = .ReserveAddress) ∧
    (ctx.config.teleport = none →
      ∀ e ∈ (CreateSaltMaster cloudInitConfig provider ctx infrastructure).trace,
        e.step = .ReserveAddress) ∧
    ((ctx.config.projectId ≠ none ∧ ctx.config.saltMaster ≠ none ∧
        ctx.config.teleport ≠ none ∧
        (∀ e ∈ (CreateSaltMaster cloudInitConfig provider ctx infrastructure).trace,
          e.step = .ReserveAddress → provider.failure e = none)) →
      ∃ e ∈ (CreateSaltMaster cloudInitConfig provider ctx infrastructure).trace,
        e.step = .GenerateRandomToken) := by
  simp only [CreateSaltMaster]
  repeat' split
  all_goals
    simp_all [Provider.failure, Event.step]

/-- C2 amended, at the configuration without `teleport`: the only event is ReserveAddress. -/
theorem C2_missing_config_amended_witness :
    ctxNoTeleport.config.teleport = none ∧
    ∀ e ∈ (CreateSaltMaster exampleRender okProvider ctxNoTeleport exampleInfra).trace,
      e.step = .ReserveAddress :=
  ⟨by decide,
   (C2_missing_config_amended exampleRender okProvider ctxNoTeleport exampleInfra
      (Or.inr (Or.inr (Or.inl (by decide))))).2.2.2.2.1 (by decide)⟩

/-- C3 as stated fails: a run whose ReserveAddress fails and a run whose CreateInstance
fails, both with the provider error `quota exceeded`, return the same pair, the bare provider
error, so the failing step cannot be read off the returned error. -/
theorem C3_counterexample :
    (∃ e ∈ (CreateSaltMaster exampleRender reserveFailsProvider exampleCtx exampleInfra).trace,
      e.step = .ReserveAddress ∧
      reserveFailsProvider.failure e = some { msg := "quota exceeded" }) ∧
    (∃ e ∈ (CreateSaltMaster exampleRender deviceFailsProvider exampleCtx exampleInfra).trace,
      e.step = .CreateInstance ∧
      deviceFailsProvider.failure e = some { msg := "quota exceeded" }) ∧
    (CreateSaltMaster exampleRender reserveFailsProvider exampleCtx exampleInfra).result
      = .returned SaltMaster.zero (some { msg := "quota exceeded" }) ∧
    (CreateSaltMaster exampleRender deviceFailsProvider exampleCtx exampleInfra).result
      = (CreateSaltMaster exampleRender reserveFailsProvider exampleCtx exampleInfra).result := by
  decide

/-- C3, amended: when a provider call of a run fails with `err`, the function returns
exactly `err`, as the provider produced it, and it is the first error: every other event of
the trace is a call that succeeded or is not a call. -/
theorem C3_first_error_unannotated (cloudInitConfig : BootstrapConfig → String)
    (provider : Provider) (ctx : Context) (infrastructure : Infrastructure)
    (ev : Event) (err : Error)
    (hmem : ev ∈ (CreateSaltMaster cloudInitConfig provider ctx infrastructure).trace)
    (hfail : provider.failure ev = some err) :
    (CreateSaltMaster cloudInitConfig provider ctx infrastructure).result
      = .returned SaltMaster.zero (some err) ∧
    ∀ e ∈ (CreateSaltMaster cloudInitConfig provider ctx infrastructure).trace,
      e ≠ ev → provider.failure e = none := by
  revert hmem
  simp only [CreateSaltMaster]
  repeat' split
  all_goals
    intro hmem
    simp at hmem
  all_goals
    try casesm* _ ∨ _
  all_goals
    subst_vars
    simp_all [Provider.failure]

/-- C3 amended, at a run whose address reservation fails. -/
theorem C3_first_error_unannotated_witness :
    (CreateSaltMaster exampleRender reserveFailsProvider exampleCtx exampleInfra).result
      = .returned SaltMaster.zero (some { msg := "quota exceeded" }) :=
  (C3_first_error_unannotated exampleRender reserveFailsProvider exampleCtx exampleInfra
    exampleReserveEvent { msg := "quota exceeded" } (by decide) (by decide)).1

/-- C4 as stated fails: in a run whose AttachAddress fails, both outputs have already been
written to the registry, and CreateDnsRecord is never issued. -/
theorem C4_counterexample :
    (∃ e ∈ (CreateSaltMaster exampleRender attachFailsProvider exampleCtx exampleInfra).trace,
      e.step = .AttachAddress ∧
      attachFailsProvider.failure e = some { msg := "address in use" }) ∧
    (∀ e ∈ (CreateSaltMaster exampleRender attachFailsProvider exampleCtx exampleInfra).trace,
      e.step ≠ .CreateDnsRecord) ∧
    (CreateSaltMaster exampleRender attachFailsProvider exampleCtx exampleInfra).exports
      = [("saltMasterEip", "147.75.1.2"), ("saltMasterIp", "145.40.9.9")] := by
  decide

/-- C4, amended: whenever an output is written, the ReserveAddress, GenerateRandomToken and
CreateInstance calls were issued before it and succeeded, and no AttachAddress or
CreateDnsRecord call was issued before it.  A run in which ReserveAddress,
GenerateRandomToken or CreateInstance fails writes nothing to the output registry. -/
theorem C4_publish_after_instance (cloudInitConfig : BootstrapConfig → String)
    (provider : Provider) (ctx : Context) (infrastructure : Infrastructure) :
    (∀ (pre post : List Event) (name value : String),
      (CreateSaltMaster cloudInitConfig provider ctx infrastructure).trace = pre ++ Event.Export name value :: post →
      (∃ e ∈ pre, e.step = .ReserveAddress ∧ provider.failure e = none) ∧
      (∃ e ∈ pre, e.step = .GenerateRandomToken ∧ provider.failure e = none) ∧
      (∃ e ∈ pre, e.step = .CreateInstance ∧ provider.failure e = none) ∧
      (∀ e ∈ pre, e.step ≠ .AttachAddress ∧ e.step ≠ .CreateDnsRecord)) ∧
    (∀ (e : Event) (err : Error), e ∈ (CreateSaltMaster cloudInitConfig provider ctx infrastructure).trace →
      provider.failure e = some err →
      (e.step = .ReserveAddress ∨ e.step = .GenerateRandomToken ∨ e.step = .CreateInstance) →
      (CreateSaltMaster cloudInitConfig provider ctx infrastructure).exports = []) := by
  constructor
  · intro pre post name value
    simp only [CreateSaltMaster]
    repeat' split
    all_goals
      intro hsplit
      simp [List.cons_eq_append_iff, List.nil_eq_append_iff] at hsplit
    all_goals
      casesm* _ ∨ _, _ ∧ _, Exists _
    all_goals
      subst_vars
      simp_all [Provider.failure, Event.step]
  · intro e err
    simp only [CreateSaltMaster]
    repeat' split
    all_goals
      intro hmem
      simp at hmem
    all_goals
      try casesm* _ ∨ _
    all_goals
      subst_vars
      simp_all [Provider.failure, Event.step, Run.exports]

/-- C4 amended, at a run whose instance creation fails: nothing is published. -/
theorem C4_publish_after_instance_witness :
    (CreateSaltMaster exampleRender deviceFailsProvider exampleCtx exampleInfra).exports = [] :=
  (C4_publish_after_instance exampleRender deviceFailsProvider exampleCtx exampleInfra).2
    (Event.CreateInstance "salt-master"
      { ProjectId := "proj-1", Hostname := "prod-salt-master", Plan := "c3.small.x86",
        Facilities := ["ams1"], OperatingSystem := .OperatingSystemUbuntu2004,
        Tags := ["role:salt-master"], BillingCycle := .BillingCycleHourly,
        UserData := "teleport.example.com|deadbeef" })
    { msg := "quota exceeded" } (by decide) (by decide) (by decide)

/-- The provider calls and output writes of a run, in the order of the source: a
CreateInstance call is preceded by a GenerateRandomToken call that succeeded; an
AttachAddress call, and likewise the writing of an output, is preceded by a ReserveAddress
call and a CreateInstance call that both succeeded. -/
theorem calls_in_source_order (cloudInitConfig : BootstrapConfig → String)
    (provider : Provider) (ctx : Context) (infrastructure : Infrastructure)
    (pre post : List Event) (ev : Event)
    (hsplit : (CreateSaltMaster cloudInitConfig provider ctx infrastructure).trace
      = pre ++ ev :: post) :
    (ev.step = .CreateInstance →
      ∃ e ∈ pre, e.step = .GenerateRandomToken ∧ provider.failure e = none) ∧
    (ev.step = .AttachAddress →
      (∃ e ∈ pre, e.step = .ReserveAddress ∧ provider.failure e = none) ∧
      (∃ e ∈ pre, e.step = .CreateInstance ∧ provider.failure e = none)) ∧
    (ev.step = .PublishResult →
      (∃ e ∈ pre, e.step = .ReserveAddress ∧ provider.failure e = none) ∧
      (∃ e ∈ pre, e.step = .CreateInstance ∧ provider.failure e = none)) := by
  revert hsplit
  simp only [CreateSaltMaster]
  repeat' split
  all_goals
    intro hsplit
    simp [List.cons_eq_append_iff, List.nil_eq_append_iff] at hsplit
  all_goals
    casesm* _ ∨ _, _ ∧ _, Exists _
  all_goals
    subst_vars
    simp only [Event.step]
    simp [Provider.failure, Event.step, *]

/-- Every CreateInstance event of a run carries the resource name `salt-master` and the
arguments the function builds from the settings and the generated token. -/
theorem createInstance_args (cloudInitConfig : BootstrapConfig → String)
    (provider : Provider) (ctx : Context) (infrastructure : Infrastructure)
    (name : String) (args : DeviceArgs)
    (hmem : Event.CreateInstance name args
      ∈ (CreateSaltMaster cloudInitConfig provider ctx infrastructure).trace) :
    ∃ projectID saltMasterConfig teleport github aws token,
      ctx.config.projectId = some projectID ∧
      ctx.config.saltMaster = some saltMasterConfig ∧
      ctx.config.teleport = some teleport ∧
      ctx.config.github = some github ∧
      ctx.config.aws = some aws ∧
      provider.NewRandomUuid "teleport-peer-token" = .ok token ∧
      name = "salt-master" ∧
      args =
        { ProjectId := projectID
          Hostname := ctx.Stack ++ "-" ++ "salt-master"
          Plan := saltMasterConfig.Plan
          Facilities := [saltMasterConfig.Facility]
          OperatingSystem := .OperatingSystemUbuntu2004
          Tags := ["role:salt-master"]
          BillingCycle := .BillingCycleHourly
          UserData := cloudInitConfig
            { teleportDomain := "teleport." ++ infrastructure.Zone.Zone
              teleportClientID := teleport.ClientID
              teleportClientSecret := teleport.ClientSecret
              teleportPeerToken := token.Result
              githubUsername := github.Username
              githubAccessToken := github.AccessToken
              awsBucketName := aws.BucketName
              awsBucketLocation := aws.BucketLocation
              awsAccessKeyID := aws.AccessKeyID
              awsSecretAccessKey := aws.SecretAccessKey } } := by
  revert hmem
  simp only [CreateSaltMaster]
  repeat' split
  all_goals
    intro hmem
    simp at hmem
  all_goals
    simp_all [ApplyString]

/-- Every ComposeBootstrap event of a run carries the configuration built from the settings,
with the token field set to the generated token. -/
theorem composeBootstrap_config (cloudInitConfig : BootstrapConfig → String)
    (provider : Provider) (ctx : Context) (infrastructure : Infrastructure)
    (teleport : TeleportConfig) (github : GitHubConfig) (aws : AwsConfig) (token : RandomUuid)
    (hteleport : ctx.config.teleport = some teleport)
    (hgithub : ctx.config.github = some github)
    (haws : ctx.config.aws = some aws)
    (htoken : provider.NewRandomUuid "teleport-peer-token" = .ok token)
    (c : BootstrapConfig)
    (hmem : Event.ComposeBootstrap c
      ∈ (CreateSaltMaster cloudInitConfig provider ctx infrastructure).trace) :
    c = { teleportDomain := "teleport." ++ infrastructure.Zone.Zone
          teleportClientID := teleport.ClientID
          teleportClientSecret := teleport.ClientSecret
          teleportPeerToken := token.Result
          githubUsername := github.Username
          githubAccessToken := github.AccessToken
          awsBucketName := aws.BucketName
          awsBucketLocation := aws.BucketLocation
          awsAccessKeyID := aws.AccessKeyID
          awsSecretAccessKey := aws.SecretAccessKey } := by
  revert hmem
  simp only [CreateSaltMaster]
  repeat' split
  all_goals
    intro hmem
    simp at hmem
  all_goals
    simp_all

/-- A run that issues CreateInstance has rendered the bootstrap payload. -/
theorem composeBootstrap_of_createInstance (cloudInitConfig : BootstrapConfig → String)
    (provider : Provider) (ctx : Context) (infrastructure : Infrastructure)
    (name : String) (args : DeviceArgs)
    (hmem : Event.CreateInstance name args
      ∈ (CreateSaltMaster cloudInitConfig provider ctx infrastructure).trace) :
    ∃ c, Event.ComposeBootstrap c
      ∈ (CreateSaltMaster cloudInitConfig provider ctx infrastructure).trace := by
  revert hmem
  simp only [CreateSaltMaster]
  repeat' split
  all_goals
    intro hmem
    simp at hmem
  all_goals
    simp

/-- C6: when a run calls CreateInstance, the settings `teleport`, `github`, `aws` are present,
the token was generated, and the user data of the call is `cloudInitConfig c` for the
configuration `c` with `teleportDomain = "teleport." ++ zone`, each credential field taken
from the like-named setting, and `teleportPeerToken` the resolved token.  The renderer is
applied to `c` and to no other configuration, and any run on the same request whose token
resolves to the same value hands the same user data to CreateInstance. -/
theorem C6_user_data (cloudInitConfig : BootstrapConfig → String)
    (provider : Provider) (ctx : Context) (infrastructure : Infrastructure)
    (name : String) (args : DeviceArgs)
    (hmem : Event.CreateInstance name args
      ∈ (CreateSaltMaster cloudInitConfig provider ctx infrastructure).trace) :
    ∃ (teleport : TeleportConfig) (github : GitHubConfig) (aws : AwsConfig)
      (token : RandomUuid) (c : BootstrapConfig),
      ctx.config.teleport = some teleport ∧
      ctx.config.github = some github ∧
      ctx.config.aws = some aws ∧
      provider.NewRandomUuid "teleport-peer-token" = .ok token ∧
      c = { teleportDomain := "teleport." ++ infrastructure.Zone.Zone
            teleportClientID := teleport.ClientID
            teleportClientSecret := teleport.ClientSecret
            teleportPeerToken := token.Result
            githubUsername := github.Username
            githubAccessToken := github.AccessToken
            awsBucketName := aws.BucketName
            awsBucketLocation := aws.BucketLocation
            awsAccessKeyID := aws.AccessKeyID
            awsSecretAccessKey := aws.SecretAccessKey } ∧
      args.UserData = cloudInitConfig c ∧
      Event.ComposeBootstrap c
        ∈ (CreateSaltMaster cloudInitConfig provider ctx infrastructure).trace ∧
      (∀ c2, Event.ComposeBootstrap c2
          ∈ (CreateSaltMaster cloudInitConfig provider ctx infrastructure).trace → c2 = c) ∧
      (∀ (provider2 : Provider) (name2 : String) (args2 : DeviceArgs) (token2 : RandomUuid),
        Event.CreateInstance name2 args2
          ∈ (CreateSaltMaster cloudInitConfig provider2 ctx infrastructure).trace →
        provider2.NewRandomUuid "teleport-peer-token" = .ok token2 →
        token2.Result = token.Result →
        args2.UserData = args.UserData) := by
  obtain ⟨projectID, saltMasterConfig, teleport, github, aws, token, -, -, hteleport,
    hgithub, haws, htoken, -, hargs⟩ :=
    createInstance_args cloudInitConfig provider ctx infrastructure name args hmem
  have hcompose := composeBootstrap_config cloudInitConfig provider ctx infrastructure
    teleport github aws token hteleport hgithub haws htoken
  obtain ⟨c0, hc0⟩ :=
    composeBootstrap_of_createInstance cloudInitConfig provider ctx infrastructure name args hmem
  refine ⟨teleport, github, aws, token, _, hteleport, hgithub, haws, htoken, rfl, ?_, ?_,
    hcompose, ?_⟩
  · rw [hargs]
  · rw [← hcompose c0 hc0]
    exact hc0
  · intro provider2 name2 args2 token2 hmem2 htoken2 hresult
    obtain ⟨projectID2, saltMasterConfig2, teleport2, github2, aws2, token3, -, -, hteleport2,
      hgithub2, haws2, htoken3, -, hargs2⟩ :=
      createInstance_args cloudInitConfig provider2 ctx infrastructure name2 args2 hmem2
    rw [hteleport] at hteleport2
    rw [hgithub] at hgithub2
    rw [haws] at haws2
    rw [htoken2] at htoken3
    cases hteleport2
    cases hgithub2
    cases haws2
    cases htoken3
    rw [hargs, hargs2, hresult]

/-- C6, at the fully successful example run. -/
theorem C6_user_data_witness :
    Event.CreateInstance "salt-master"
      { ProjectId := "proj-1", Hostname := "prod-salt-master", Plan := "c3.small.x86",
        Facilities := ["ams1"], OperatingSystem := .OperatingSystemUbuntu2004,
        Tags := ["role:salt-master"], BillingCycle := .BillingCycleHourly,
        UserData := "teleport.example.com|deadbeef" }
      ∈ (CreateSaltMaster exampleRender okProvider exampleCtx exampleInfra).trace ∧
    ∃ (teleport : TeleportConfig) (github : GitHubConfig) (aws : AwsConfig)
      (token : RandomUuid) (c : BootstrapConfig),
      exampleCtx.config.teleport = some teleport ∧
      exampleCtx.config.github = some github ∧
      exampleCtx.config.aws = some aws ∧
      okProvider.NewRandomUuid "teleport-peer-token" = .ok token ∧
      c = { teleportDomain := "teleport." ++ exampleInfra.Zone.Zone
            teleportClientID := teleport.ClientID
            teleportClientSecret := teleport.ClientSecret
            teleportPeerToken := token.Result
            githubUsername := github.Username
            githubAccessToken := github.AccessToken
            awsBucketName := aws.BucketName
            awsBucketLocation := aws.BucketLocation
            awsAccessKeyID := aws.AccessKeyID
            awsSecretAccessKey := aws.SecretAccessKey } ∧
      "teleport.example.com|deadbeef" = exampleRender c :=
  ⟨by decide, by
    obtain ⟨teleport, github, aws, token, c, h1, h2, h3, h4, h5, h6, -⟩ :=
      C6_user_data exampleRender okProvider exampleCtx exampleInfra _ _
        (show Event.CreateInstance "salt-master"
          { ProjectId := "proj-1", Hostname := "prod-salt-master", Plan := "c3.small.x86",
            Facilities := ["ams1"], OperatingSystem := .OperatingSystemUbuntu2004,
            Tags := ["role:salt-master"], BillingCycle := .BillingCycleHourly,
            UserData := "teleport.example.com|deadbeef" }
          ∈ (CreateSaltMaster exampleRender okProvider exampleCtx exampleInfra).trace
          by decide)
    exact ⟨teleport, github, aws, token, c, h1, h2, h3, h4, h5, h6⟩⟩

/-- C7: when a run calls CreateDnsRecord, the arguments are the zone, the domain
`"teleport." ++ zone`, the type `A` and the one-element answer list holding the address of
the block that ReserveAddress returned in the same run; the domain is the `teleportDomain`
of the rendered bootstrap configuration; for the zone `example.com` it is
`teleport.example.com`. -/
theorem C7_dns_record (cloudInitConfig : BootstrapConfig → String)
    (provider : Provider) (ctx : Context) (infrastructure : Infrastructure)
    (name : String) (args : RecordArgs)
    (hmem : Event.CreateDnsRecord name args
      ∈ (CreateSaltMaster cloudInitConfig provider ctx infrastructure).trace) :
    ∃ (reserveArgs : ReservedIpBlockArgs) (elasticIP : ReservedIpBlock),
      Event.ReserveAddress "salt-master" reserveArgs
        ∈ (CreateSaltMaster cloudInitConfig provider ctx infrastructure).trace ∧
      provider.NewReservedIpBlock "salt-master" reserveArgs = .ok elasticIP ∧
      args = { Zone := infrastructure.Zone.Zone
               Domain := "teleport." ++ infrastructure.Zone.Zone
               RecordType := "A"
               Answers := [{ Answer := elasticIP.Address }] } ∧
      (∃ c, Event.ComposeBootstrap c
          ∈ (CreateSaltMaster cloudInitConfig provider ctx infrastructure).trace ∧
        c.teleportDomain = args.Domain) ∧
      (∀ c, Event.ComposeBootstrap c
          ∈ (CreateSaltMaster cloudInitConfig provider ctx infrastructure).trace →
        c.teleportDomain = args.Domain) ∧
      (infrastructure.Zone.Zone = "example.com" → args.Domain = "teleport.example.com") := by
  revert hmem
  simp only [CreateSaltMaster]
  repeat' split
  all_goals
    intro hmem
    simp at hmem
  all_goals
    obtain ⟨-, rfl⟩ := hmem
    simp_all

/-- C7, at the fully successful example run. -/
theorem C7_dns_record_witness :
    Event.CreateDnsRecord "teleport"
      { Zone := "example.com", Domain := "teleport.example.com", RecordType := "A",
        Answers := [{ Answer := "147.75.1.2" }] }
      ∈ (CreateSaltMaster exampleRender okProvider exampleCtx exampleInfra).trace ∧
    ∃ (reserveArgs : ReservedIpBlockArgs) (elasticIP : ReservedIpBlock),
      okProvider.NewReservedIpBlock "salt-master" reserveArgs = .ok elasticIP ∧
      ({ Zone := "example.com", Domain := "teleport.example.com", RecordType := "A",
         Answers := [{ Answer := "147.75.1.2" }] } : RecordArgs)
        = { Zone := exampleInfra.Zone.Zone
            Domain := "teleport." ++ exampleInfra.Zone.Zone
            RecordType := "A"
            Answers := [{ Answer := elasticIP.Address }] } :=
  ⟨by decide, by
    obtain ⟨reserveArgs, elasticIP, -, h2, h3, -⟩ :=
      C7_dns_record exampleRender okProvider exampleCtx exampleInfra _ _
        (show Event.CreateDnsRecord "teleport"
          { Zone := "example.com", Domain := "teleport.example.com", RecordType := "A",
            Answers := [{ Answer := "147.75.1.2" }] }
          ∈ (CreateSaltMaster exampleRender okProvider exampleCtx exampleInfra).trace
          by decide)
    exact ⟨reserveArgs, elasticIP, h2, h3⟩⟩

/-- C8: when every required setting is present and every call issued by the run succeeds,
the output registry is written exactly twice, `saltMasterEip` with the address of the
reserved block and then `saltMasterIp` with the public IPv4 address of the created device,
and the function returns that device with a nil error. -/
theorem C8_success_outputs (cloudInitConfig : BootstrapConfig → String)
    (provider : Provider) (ctx : Context) (infrastructure : Infrastructure)
    (hconfig : ctx.config.projectId ≠ none ∧ ctx.config.saltMaster ≠ none ∧
      ctx.config.teleport ≠ none ∧ ctx.config.github ≠ none ∧ ctx.config.aws ≠ none)
    (hok : ∀ e ∈ (CreateSaltMaster cloudInitConfig provider ctx infrastructure).trace,
      provider.failure e = none) :
    ∃ (reserveArgs : ReservedIpBlockArgs) (elasticIP : ReservedIpBlock)
      (deviceArgs : DeviceArgs) (device : Device),
      Event.ReserveAddress "salt-master" reserveArgs
        ∈ (CreateSaltMaster cloudInitConfig provider ctx infrastructure).trace ∧
      provider.NewReservedIpBlock "salt-master" reserveArgs = .ok elasticIP ∧
      Event.CreateInstance "salt-master" deviceArgs
        ∈ (CreateSaltMaster cloudInitConfig provider ctx infrastructure).trace ∧
      provider.NewDevice "salt-master" deviceArgs = .ok device ∧
      (CreateSaltMaster cloudInitConfig provider ctx infrastructure).exports
        = [("saltMasterEip", elasticIP.Address), ("saltMasterIp", device.AccessPublicIpv4)] ∧
      (CreateSaltMaster cloudInitConfig provider ctx infrastructure).result
        = .returned { Device := device } none := by
  revert hok
  simp only [CreateSaltMaster]
  repeat' split
  all_goals
    intro hok
    simp_all [Provider.failure, Run.exports]

/-- C8, at the fully successful example run. -/
theorem C8_success_outputs_witness :
    (CreateSaltMaster exampleRender okProvider exampleCtx exampleInfra).exports
      = [("saltMasterEip", "147.75.1.2"), ("saltMasterIp", "145.40.9.9")] ∧
    (CreateSaltMaster exampleRender okProvider exampleCtx exampleInfra).result
      = .returned { Device := { ID := "device-1", AccessPublicIpv4 := "145.40.9.9" } } none ∧
    ∃ (reserveArgs : ReservedIpBlockArgs) (elasticIP : ReservedIpBlock)
      (deviceArgs : DeviceArgs) (device : Device),
      okProvider.NewReservedIpBlock "salt-master" reserveArgs = .ok elasticIP ∧
      okProvider.NewDevice "salt-master" deviceArgs = .ok device ∧
      (CreateSaltMaster exampleRender okProvider exampleCtx exampleInfra).exports
        = [("saltMasterEip", elasticIP.Address), ("saltMasterIp", device.AccessPublicIpv4)] :=
  ⟨by decide, by decide, by
    obtain ⟨reserveArgs, elasticIP, deviceArgs, device, -, h2, -, h4, h5, -⟩ :=
      C8_success_outputs exampleRender okProvider exampleCtx exampleInfra
        (by decide) (by decide)
    exact ⟨reserveArgs, elasticIP, deviceArgs, device, h2, h4, h5⟩⟩

/-- C9: in every run each provider call step occurs at most once in the trace, and an
AttachAddress call carries the id of the device returned by CreateInstance in that run, the
CIDR notation of the block returned by ReserveAddress in that run, and delete-before-replace
set to true. -/
theorem C9_attach_once (cloudInitConfig : BootstrapConfig → String)
    (provider : Provider) (ctx : Context) (infrastructure : Infrastructure) :
    (∀ s : Step, s.isCall = true →
      ((CreateSaltMaster cloudInitConfig provider ctx infrastructure).trace.map
        Event.step).count s ≤ 1) ∧
    (∀ (name : String) (args : IpAttachmentArgs) (deleteBeforeReplace : Bool),
      Event.AttachAddress name args deleteBeforeReplace
        ∈ (CreateSaltMaster cloudInitConfig provider ctx infrastructure).trace →
      ∃ (reserveArgs : ReservedIpBlockArgs) (elasticIP : ReservedIpBlock)
        (deviceArgs : DeviceArgs) (device : Device),
        Event.ReserveAddress "salt-master" reserveArgs
          ∈ (CreateSaltMaster cloudInitConfig provider ctx infrastructure).trace ∧
        provider.NewReservedIpBlock "salt-master" reserveArgs = .ok elasticIP ∧
        Event.CreateInstance "salt-master" deviceArgs
          ∈ (CreateSaltMaster cloudInitConfig provider ctx infrastructure).trace ∧
        provider.NewDevice "salt-master" deviceArgs = .ok device ∧
        args = { DeviceId := device.ID, CidrNotation := elasticIP.CidrNotation } ∧
        deleteBeforeReplace = true) := by
  constructor
  · intro s hs
    simp only [CreateSaltMaster]
    repeat' split
    all_goals
      cases s <;> simp_all [Event.step, Step.isCall, Step.callRank]
  · intro name args deleteBeforeReplace
    simp only [CreateSaltMaster]
    repeat' split
    all_goals
      intro hmem
      simp at hmem
    all_goals
      obtain ⟨-, rfl, rfl⟩ := hmem
      simp_all

/-- C9, at the fully successful example run. -/
theorem C9_attach_once_witness :
    (Step.AttachAddress).isCall = true ∧
    ((CreateSaltMaster exampleRender okProvider exampleCtx exampleInfra).trace.map
      Event.step).count .AttachAddress ≤ 1 :=
  ⟨by decide,
   (C9_attach_once exampleRender okProvider exampleCtx exampleInfra).1 .AttachAddress
     (by decide)⟩

set_option maxHeartbeats 4000000 in
/-- C10: two runs on the same request, with providers whose ReserveAddress succeeds (with any
blocks) and whose token resolves to the same value, issue the same CreateInstance calls.  If
the two providers also create devices alike, the two traces agree on every event other than
the attachment, the DNS record and the `saltMasterEip` output. -/
theorem C10_instance_independent_of_address (cloudInitConfig : BootstrapConfig → String)
    (provider1 provider2 : Provider) (ctx : Context) (infrastructure : Infrastructure)
    (token1 token2 : RandomUuid)
    (hreserve1 : ∀ e ∈ (CreateSaltMaster cloudInitConfig provider1 ctx infrastructure).trace,
      e.step = .ReserveAddress → provider1.failure e = none)
    (hreserve2 : ∀ e ∈ (CreateSaltMaster cloudInitConfig provider2 ctx infrastructure).trace,
      e.step = .ReserveAddress → provider2.failure e = none)
    (htoken1 : provider1.NewRandomUuid "teleport-peer-token" = .ok token1)
    (htoken2 : provider2.NewRandomUuid "teleport-peer-token" = .ok token2)
    (htoken : token1.Result = token2.Result) :
    (CreateSaltMaster cloudInitConfig provider1 ctx infrastructure).createInstanceCalls
      = (CreateSaltMaster cloudInitConfig provider2 ctx infrastructure).createInstanceCalls ∧
    (provider1.NewDevice = provider2.NewDevice →
      (CreateSaltMaster cloudInitConfig provider1 ctx infrastructure).trace.filter
          (fun e => !e.usesReservedAddress)
        = (CreateSaltMaster cloudInitConfig provider2 ctx infrastructure).trace.filter
          (fun e => !e.usesReservedAddress)) := by
  revert hreserve1 hreserve2
  rcases hprojectId : ctx.config.projectId with _ | projectID <;>
  rcases hsaltMaster : ctx.config.saltMaster with _ | saltMasterConfig <;>
  rcases hteleport : ctx.config.teleport with _ | teleport <;>
  rcases hgithub : ctx.config.github with _ | github <;>
  rcases haws : ctx.config.aws with _ | aws <;>
  simp only [CreateSaltMaster, hprojectId, hsaltMaster, hteleport, hgithub, haws, htoken1,
    htoken2, ApplyString, htoken]
  all_goals
    repeat' split
  all_goals
    intro hreserve1 hreserve2
    simp_all [Provider.failure, Event.step, Run.createInstanceCalls, Event.usesReservedAddress]
  all_goals
    intro hdevice
    simp_all

/-- C10, at two providers that reserve different address blocks. -/
theorem C10_instance_independent_of_address_witness :
    okProvider.NewReservedIpBlock "salt-master"
        { Facility := "ams1", ProjectId := "proj-1", Quantity := 1 }
      = .ok { Address := "147.75.1.2", CidrNotation := "147.75.1.2/32" } ∧
    otherBlockProvider.NewReservedIpBlock "salt-master"
        { Facility := "ams1", ProjectId := "proj-1", Quantity := 1 }
      = .ok { Address := "147.75.7.7", CidrNotation := "147.75.7.7/32" } ∧
    (CreateSaltMaster exampleRender okProvider exampleCtx exampleInfra).createInstanceCalls
      = (CreateSaltMaster exampleRender otherBlockProvider exampleCtx
          exampleInfra).createInstanceCalls ∧
    (CreateSaltMaster exampleRender okProvider exampleCtx exampleInfra).createInstanceCalls.length
      = 1 :=
  ⟨rfl, rfl,
   (C10_instance_independent_of_address exampleRender okProvider otherBlockProvider exampleCtx
      exampleInfra { Result := "deadbeef" } { Result := "deadbeef" }
      (by decide) (by decide) rfl rfl rfl).1,
   by decide⟩

end Master
